import Mathlib

/-!
Verification of the Application Record Store of the job-tracker repository
(`src/job_tracker.py`, `src/job_tracker_app.py`).

The store is a CSV file (`applications.csv`) with 8 named columns; every
operation re-reads the whole file into a pandas DataFrame, computes, and (for
mutations) rewrites the whole file.  We embed the store at the level such a
loaded DataFrame presents to the business logic:

* a cell of the loaded table is `Option String` — `none` models a missing
  value (pandas `NaN`, produced by `read_csv` for an empty field), `some s`
  models a text cell;
* a `Record` is one row (the 8 columns), a `Store` is the ordered list of rows;
* dates are modelled as `Date` triples; `parseDate` embeds
  `datetime.strptime(s, "%Y-%m-%d")` following CPython's `_strptime`
  regular expressions (exactly-four-digit year, one-or-two-digit month,
  one-or-two-digit or space-padded day) with real calendar validation,
  leap years and `MINYEAR` included;
* `toDatetime` embeds `pd.to_datetime(cell, errors='coerce')` as used on the
  `Follow-up Date` column: missing or unparseable text coerces to `none`
  (NaT), and so does a parsed date outside the nanosecond `Timestamp`
  bounds.  The store only ever writes ISO `YYYY-MM-DD` text into that
  column, and the follow-up theorem is scoped to such cells (`isoCell`).

A separate, cell-level model of the persistence boundary
(`DataFrame.to_csv` / `pd.read_csv`) is given further below for the
round-trip property: there a cell is a `PyVal` (missing / integer / text),
`writeCell` is the serialization of one cell and `readColumn` the
per-column type inference `read_csv` applies.  The delimiting layer itself
(comma separation and quoting) is lossless at cell boundaries and is not
re-modelled; what is modelled is exactly the lossy part, the text→value
inference.
-/

/-- A calendar date. `parseDate` only constructs calendar-valid dates;
the type itself does not enforce validity. -/
structure Date where
  year : Nat
  month : Nat
  day : Nat
deriving DecidableEq, Repr

/-- Numeric key giving the chronological order used by pandas timestamps
on ISO dates. -/
def Date.toKey (d : Date) : Nat := d.year * 10000 + d.month * 100 + d.day

/-- Boolean `a ≤ b` on dates (the comparison pandas performs on the
coerced `Follow-up Date` column). -/
def Date.leb (a b : Date) : Bool := a.toKey ≤ b.toKey

/-- Gregorian leap-year rule (as validated by `datetime.strptime`). -/
def isLeap (y : Nat) : Bool := y % 4 == 0 && (y % 100 != 0 || y % 400 == 0)

/-- Number of days of month `m` in year `y`. -/
def daysInMonth (y m : Nat) : Nat :=
  if m == 2 then (if isLeap y then 29 else 28)
  else if m == 4 || m == 6 || m == 9 || m == 11 then 30
  else 31

/-- Greedily take up to `k` leading decimal digits of a character list,
returning the digits and the rest (how `strptime` consumes a numeric
directive). -/
def takeDigits : Nat → List Char → (List Char × List Char)
  | 0, cs => ([], cs)
  | _ + 1, [] => ([], [])
  | k + 1, c :: cs =>
    if c.isDigit then
      let p := takeDigits k cs
      (c :: p.1, p.2)
    else ([], c :: cs)

/-- Numeric value of a digit list. -/
def digitsToNat (ds : List Char) : Nat :=
  ds.foldl (fun n c => n * 10 + (c.toNat - 48)) 0

/-- Embeds `datetime.strptime(s, "%Y-%m-%d").date()` following CPython's
`_strptime` regular expressions and `date` range validation: `%Y` is
exactly four digits, then a literal dash, `%m` is one or two digits, a
dash, and `%d` is one or two digits or a space followed by one non-zero
digit, with nothing left over; the year must be at least `MINYEAR` (1),
the month 1..12, and the day valid for that month and year (leap years
included).  Returns `none` exactly when `strptime` raises `ValueError`
(so `"999-01-02"` and `"0000-01-01"` fail, while `"0999-01-02"` and the
space-padded `"2024-01- 5"` parse). -/
def parseDate (s : String) : Option Date :=
  match s.toList with
  | y1 :: y2 :: y3 :: y4 :: '-' :: rest1 =>
    if y1.isDigit && y2.isDigit && y3.isDigit && y4.isDigit then
      let y := digitsToNat [y1, y2, y3, y4]
      let pm := takeDigits 2 rest1
      match pm.1, pm.2 with
      | [], _ => none
      | ms, '-' :: rest2 =>
        let m := digitsToNat ms
        let dayVal : Option Nat :=
          match rest2 with
          | [' ', c] => if c.isDigit && c != '0' then some (digitsToNat [c]) else none
          | _ =>
            let pd := takeDigits 2 rest2
            match pd.1, pd.2 with
            | [], _ => none
            | ds, [] => some (digitsToNat ds)
            | _, _ => none
        match dayVal with
        | none => none
        | some d =>
          if 1 ≤ y && 1 ≤ m && m ≤ 12 && 1 ≤ d && d ≤ daysInMonth y m then
            some ⟨y, m, d⟩
          else none
      | _, _ => none
    else none
  | _ => none

/-- One row of the loaded table: the 8 columns of `COLUMNS`.
`none` is a missing value (NaN), `some s` a text cell. -/
structure Record where
  date : Option String
  company : Option String
  role : Option String
  method : Option String
  contact : Option String
  status : Option String
  followUp : Option String
  notes : Option String
deriving DecidableEq, Repr

/-- The loaded store: the ordered rows of `applications.csv`. -/
abbrev Store := List Record

/-- Embeds `view_applications`: the store is returned in insertion order;
the 1-based display index of a record is its position here.
(The function only renders; it does not reorder or filter.) -/
def view_applications (s : Store) : List Record := s

/-- First whole calendar day inside the pandas nanosecond `Timestamp`
range (`Timestamp.min` is 1677-09-21 00:12:43.145224193, so midnight of
1677-09-21 is already out of bounds). -/
def tsMin : Date := ⟨1677, 9, 22⟩

/-- Last whole calendar day inside the pandas nanosecond `Timestamp`
range (`Timestamp.max` is 2262-04-11 23:47:16.854775807). -/
def tsMax : Date := ⟨2262, 4, 11⟩

/-- Embeds `pd.to_datetime(cell, errors='coerce')` on a `Follow-up Date`
cell: a missing cell stays missing (NaT); text is parsed, with parse
failure coerced to NaT, and a parsed date outside the nanosecond
`Timestamp` bounds (`OutOfBoundsDatetime`) also coerced to NaT.  The text
grammar is modelled for the ISO `YYYY-MM-DD` forms this store itself
writes into the column (see `isoCell`); the additional non-ISO formats
pandas' general parser accepts are outside the model, so the follow-up
theorem is stated for store-written cells only. -/
def toDatetime : Option String → Option Date
  | none => none
  | some s =>
    match parseDate s with
    | none => none
    | some d => if tsMin.leb d && d.leb tsMax then some d else none

/-- The spec-side due test, as amended: the record's Follow-up Date is
non-blank, parseable, within the pandas `Timestamp` bounds, and on or
before `asOf`. -/
def followUpDue (asOf : Date) (cell : Option String) : Bool :=
  match cell with
  | none => false
  | some s =>
    match parseDate s with
    | none => false
    | some d => (tsMin.leb d && d.leb tsMax) && d.leb asOf

/-- Embeds `follow_ups_pending`: the source first overwrites the `Follow-up Date`
column with its coerced values (`df['Follow-up Date'] = pd.to_datetime(...)`)
and then keeps the rows whose coerced value is `≤ today`
(`df[df['Follow-up Date'] <= today]`).  We model the two phases literally:
pair each row with its coerced follow-up value, filter by the comparison
(in which NaT compares false), and return the surviving rows. -/
def follow_ups_pending (asOf : Date) (s : Store) : List Record :=
  ((s.map (fun r => (r, toDatetime r.followUp))).filter
      (fun p => match p.2 with
        | some d => d.leb asOf
        | none => false)).map Prod.fst

/-- Outcome of `delete_application` once a number has been entered and the
deletion confirmed. -/
inductive DeleteResult where
  | ok (s : Store)
  | indexOutOfRange
deriving DecidableEq, Repr

/-- Embeds `delete_application` at display number `i` (an arbitrary integer, as
`int(input(...))` can produce): the source computes `idx = i - 1`, rejects
`idx < 0 or idx >= len(df)` without touching the file, and otherwise drops
the row at position `idx` (`df.drop(idx).reset_index(drop=True)`). -/
def delete_application (i : Int) (s : Store) : DeleteResult :=
  let idx := i - 1
  if idx < 0 || s.length ≤ idx then
    .indexOutOfRange
  else
    .ok (s.eraseIdx idx.toNat)

/-- The file contents after a `delete_application` call: re-persisted on
success, untouched on failure. -/
def storeAfterDelete (i : Int) (s : Store) : Store :=
  match delete_application i s with
  | .ok s2 => s2
  | .indexOutOfRange => s

/-- Column of `Status` values that are present (non-missing): pandas
`value_counts` counts exactly these (its default `dropna=True` skips NaN). -/
def presentStatuses (s : Store) : List String := s.filterMap Record.status

/-- Embeds the multiset content of `df['Status'].value_counts()`: each
distinct present value paired with its occurrence count.  The enumeration
order pandas displays (sorted by count descending, with library-dependent
tie order) is not modelled; no theorem below depends on the order of this
list. -/
def value_counts (l : List String) : List (String × Nat) :=
  l.dedup.map (fun a => (a, l.count a))

/-- Embeds `series.get(key, 0)` on a value-counts series: the count paired
with `key`, or 0 when the key is absent. -/
def seriesGet (vc : List (String × Nat)) (key : String) : Nat :=
  ((vc.find? (fun p => p.1 == key)).map Prod.snd).getD 0

/-- The report computed by `application_stats`: total row count, the
status/count table, the two conversion percentages (exact rationals; the
source formats them with one decimal afterwards), and the pending
follow-up count. -/
structure StatsReport where
  total : Nat
  statusCounts : List (String × Nat)
  appsToInterview : Rat
  appsToOffer : Rat
  pendingFollowUpCount : Nat
deriving DecidableEq, Repr

/-- Embeds `application_stats`: on an empty table it reports "No
applications found" and returns without producing a report (`none` here,
the spec's `EmptyStore` signal); otherwise it computes `value_counts` of
the `Status` column, `total = len(df)`, the Interview and Offer conversion
percentages `status_counts.get(k, 0) / total * 100`, and the pending
follow-up count via the same coerce-and-compare pass as
`follow_ups_pending`. -/
def application_stats (asOf : Date) (s : Store) : Option StatsReport :=
  if s.isEmpty then none
  else
    let sc := value_counts (presentStatuses s)
    let total := s.length
    some
      { total := total
        statusCounts := sc
        appsToInterview := (seriesGet sc "Interview" : Rat) / (total : Rat) * 100
        appsToOffer := (seriesGet sc "Offer" : Rat) / (total : Rat) * 100
        pendingFollowUpCount := (follow_ups_pending asOf s).length }

/-- Raw terminal answers collected by `add_application`, before any
normalization (the source applies `.strip()` to each as it reads it). -/
structure RawInput where
  dateApplied : String
  company : String
  role : String
  method : String
  contact : String
  status : String
  followUp : String
  notes : String

/-- Embeds Python `str.strip()`: leading and trailing whitespace removed
(defined over the character list so that it evaluates by `decide`). -/
def pyStrip (s : String) : String :=
  ⟨((s.toList.dropWhile Char.isWhitespace).reverse.dropWhile Char.isWhitespace).reverse⟩

/-- Two-digit zero-padded rendering of a field of a date. -/
def pad2 (n : Nat) : String := if n < 10 then "0" ++ toString n else toString n

/-- Four-digit zero-padded rendering of a year. -/
def pad4 (n : Nat) : String :=
  if n < 10 then "000" ++ toString n
  else if n < 100 then "00" ++ toString n
  else if n < 1000 then "0" ++ toString n
  else toString n

/-- ISO `YYYY-MM-DD` rendering of a date — `str(datetime.date)`, which is
how a date object is serialized into the CSV. -/
def dateToIso (d : Date) : String :=
  pad4 d.year ++ "-" ++ pad2 d.month ++ "-" ++ pad2 d.day

/-- Follow-up cell text the program itself ever persists: a missing cell,
the blank cell, or the ISO serialization of a `strptime`-parsed date.
`toDatetime` coincides with `pd.to_datetime(..., errors='coerce')` on
exactly these cells. -/
def isoCell : Option String → Bool
  | none => true
  | some s =>
    s == "" ||
      (match parseDate s with
       | some d => s == dateToIso d
       | none => false)

/-- Embeds the application-date normalization of `add_application`: blank
input means today; otherwise `strptime`, and on `ValueError` today is
substituted (with only a printed warning). -/
def normalizeAppDate (t : String) (today : Date) : Date :=
  if t = "" then today
  else
    match parseDate t with
    | some d => d
    | none => today

/-- Embeds the follow-up normalization of `add_application`: blank stays
blank; otherwise `strptime`, and on `ValueError` the empty string is
substituted (with only a printed warning).  The in-memory cell is always a
string or a date, never missing, so the result is a `some` cell; a parsed
date is represented by its ISO serialization. -/
def normalizeFollowUpCell (t : String) : Option String :=
  if t = "" then some ""
  else
    match parseDate t with
    | some d => some (dateToIso d)
    | none => some ""

/-- The row `add_application` constructs from the raw answers (`new_row` in
the source): every text field stripped, the application date normalized
(represented by its ISO serialization, which is what is persisted), the
follow-up date normalized to a date or blank. -/
def newRecord (raw : RawInput) (today : Date) : Record :=
  { date := some (dateToIso (normalizeAppDate (pyStrip raw.dateApplied) today))
    company := some (pyStrip raw.company)
    role := some (pyStrip raw.role)
    method := some (pyStrip raw.method)
    contact := some (pyStrip raw.contact)
    status := some (pyStrip raw.status)
    followUp := normalizeFollowUpCell (pyStrip raw.followUp)
    notes := some (pyStrip raw.notes) }

/-- Embeds `add_application`: the constructed row is appended to the loaded
table (`pd.concat([df, pd.DataFrame([new_row])])`) and the whole table is
re-persisted.  No failure path exists: every input produces an appended
row. -/
def add_application (raw : RawInput) (today : Date) (s : Store) : Store :=
  s ++ [newRecord raw today]

/-- Count of records whose `Status` cell holds exactly the text `t` (the
spec-side notion "records whose Status equals targetStatus"). -/
def countStatus (t : String) (s : Store) : Nat :=
  s.countP (fun r => r.status == some t)

/-- Value of one cell of a DataFrame as `read_csv` materializes it:
missing (NaN), an inferred integer, or text.  (Float, boolean and similar
inferred column types are not modelled; text shaped like them is excluded
from the plain-text predicate below instead.) -/
inductive PyVal where
  | nan : PyVal
  | int (n : Int) : PyVal
  | str (s : String) : PyVal
deriving DecidableEq, Repr

/-- Default tokens `pd.read_csv` treats as missing values (`STR_NA_VALUES`),
the empty field included. -/
def naTokens : List String :=
  ["", "#N/A", "#N/A N/A", "#NA", "-1.#IND", "-1.#QNAN", "-NaN", "-nan",
   "1.#IND", "1.#QNAN", "<NA>", "N/A", "NA", "NULL", "NaN", "None",
   "n/a", "nan", "null"]

/-- Text shaped like a (signed) decimal integer, which `read_csv` converts
when a whole column is so shaped. -/
def intLike (s : String) : Bool :=
  match s.toList with
  | [] => false
  | c :: cs =>
    if c == '-' || c == '+' then !cs.isEmpty && cs.all Char.isDigit
    else (c :: cs).all Char.isDigit

/-- Integer value of an `intLike` token. -/
def parseIntToken (s : String) : Int :=
  match s.toList with
  | '-' :: cs => -(digitsToNat cs : Int)
  | '+' :: cs => (digitsToNat cs : Int)
  | cs => (digitsToNat cs : Int)

/-- Exponent suffix of a decimal float token: nothing, or `e`/`E`, an
optional sign, and at least one digit. -/
def expPart : List Char → Bool
  | [] => true
  | c :: r =>
    if c == 'e' || c == 'E' then
      let r2 := match r with
        | c2 :: r3 => if c2 == '+' || c2 == '-' then r3 else c2 :: r3
        | [] => []
      !r2.isEmpty && r2.all Char.isDigit
    else false

/-- Text shaped like a decimal float as the `read_csv` C parser accepts it
(`[+-]? (digits [. digits?] | . digits) ([eE] [+-]? digits)?`), which
converts when a whole column is numeric.  ISO date text such as
`"2024-01-01"` is NOT float-shaped (the second dash can be no exponent),
so dates stay plain text. -/
def floatLike (s : String) : Bool :=
  let cs0 := s.toList
  let cs := match cs0 with
    | c :: rest => if c == '+' || c == '-' then rest else cs0
    | [] => []
  let ip := cs.takeWhile Char.isDigit
  let r1 := cs.dropWhile Char.isDigit
  if ip.isEmpty then
    match r1 with
    | '.' :: r =>
      !(r.takeWhile Char.isDigit).isEmpty && expPart (r.dropWhile Char.isDigit)
    | _ => false
  else
    match r1 with
    | '.' :: r => expPart (r.dropWhile Char.isDigit)
    | _ => expPart r1

/-- Tokens `read_csv` can convert to booleans or infinities. -/
def specialToken (s : String) : Bool :=
  s ∈ ["True", "TRUE", "true", "False", "FALSE", "false",
       "inf", "-inf", "+inf", "Inf", "-Inf", "Infinity", "-Infinity", "INF"]

/-- Plain text: survives `read_csv` unchanged in any column.  Not a missing
token, not integer-shaped, not float-shaped, not a boolean/infinity
token. -/
def plainText (s : String) : Bool :=
  !(naTokens.contains s) && !(intLike s) && !(floatLike s) && !(specialToken s)

/-- Embeds `DataFrame.to_csv` on one cell: missing values are written as an
empty field, integers and text as their verbatim rendering.  (The comma
delimiting and quoting layer is lossless at cell boundaries and is taken as
identity here.) -/
def writeCell : PyVal → String
  | .nan => ""
  | .int n => toString n
  | .str s => s

/-- Embeds the per-column type inference of `pd.read_csv`: within a column,
every missing token becomes NaN; if every field of the column is a missing
token or integer-shaped, the column converts to a numeric column, otherwise
the remaining fields stay text.  (A numeric column containing missing
values really materializes as floats; the int/float distinction is not
modelled and no theorem below touches it.) -/
def readColumn (cells : List String) : List PyVal :=
  if cells.all (fun c => naTokens.contains c || intLike c) then
    cells.map (fun c => if naTokens.contains c then .nan else .int (parseIntToken c))
  else
    cells.map (fun c => if naTokens.contains c then .nan else .str c)

/-- Persist-then-reload of one column of the store: serialize every cell,
then re-read the column. -/
def reloadColumn (col : List PyVal) : List PyVal :=
  readColumn (col.map writeCell)

/-- Cells the round trip leaves intact: missing cells and plain text.
Empty text is NOT such a cell — it serializes to an empty field, which
reloads as missing. -/
def cellIntact : PyVal → Bool
  | .nan => true
  | .str s => plainText s
  | .int _ => false

/-- A loaded row with every cell missing (as an all-blank CSV line loads). -/
def blankRec : Record :=
  { date := none, company := none, role := none, method := none,
    contact := none, status := none, followUp := none, notes := none }

/-- A sample loaded row carrying a given `Status` text. -/
def statusRec (t : String) : Record :=
  { date := some "2024-01-01", company := some "Acme", role := some "Dev",
    method := some "email", contact := none, status := some t,
    followUp := none, notes := none }

/-- A sample loaded row whose follow-up date is the given text. -/
def followUpRec (t : String) : Record :=
  { date := some "2023-12-20", company := some "Initech", role := some "QA",
    method := some "portal", contact := none, status := some "Applied",
    followUp := some t, notes := none }

/-- A concrete raw input whose application date parses — with the
space-padded day `strptime`'s `%d` accepts. -/
def rawValidDate : RawInput :=
  { dateApplied := "2024-01- 5", company := "Acme", role := "Dev",
    method := "email", contact := "", status := "Applied",
    followUp := "", notes := "" }

/-- A concrete raw input with an unparseable, non-blank follow-up:
`"999-01-02"` fails `strptime` because `%Y` is exactly four digits. -/
def rawBadFollowUp : RawInput :=
  { dateApplied := "2024-05-06", company := "Acme", role := "Dev",
    method := "email", contact := "", status := "Applied",
    followUp := "999-01-02", notes := "" }

/-- The scenario store of the spec: statuses Applied, Applied, Interview,
Offer. -/
def scenarioStore : Store :=
  [statusRec "Applied", statusRec "Applied", statusRec "Interview", statusRec "Offer"]

/-- A loaded store containing a row whose Status cell is missing — exactly
what a persisted blank Status becomes on reload. -/
def storeWithMissingStatus : Store := [blankRec, statusRec "Applied"]

lemma followUpDue_eq_coerce (asOf : Date) (cell : Option String) :
    (match toDatetime cell with
     | some d => d.leb asOf
     | none => false) = followUpDue asOf cell := by
  cases cell with
  | none => rfl
  | some s =>
    cases hp : parseDate s with
    | none => simp [toDatetime, followUpDue, hp]
    | some d =>
      by_cases hb : (tsMin.leb d && d.leb tsMax) = true
      · simp [toDatetime, followUpDue, hp, hb]
      · simp [toDatetime, followUpDue, hp, hb]

lemma follow_ups_pending_eq_filter (asOf : Date) (s : Store) :
    follow_ups_pending asOf s = s.filter (fun r => followUpDue asOf r.followUp) := by
  unfold follow_ups_pending
  rw [List.filter_map, List.map_map]
  have h1 : ((fun p : Record × Option Date =>
      match p.2 with
      | some d => d.leb asOf
      | none => false) ∘ fun r : Record => (r, toDatetime r.followUp)) =
      fun r : Record =>
        match toDatetime r.followUp with
        | some d => d.leb asOf
        | none => false := rfl
  have h2 : (Prod.fst ∘ fun r : Record => (r, toDatetime r.followUp)) = id := rfl
  rw [h1, h2, List.map_id]
  exact List.filter_congr (fun r _ => followUpDue_eq_coerce asOf r.followUp)

lemma seriesGet_map_eq (d : List String) (c : String → Nat) (t : String) :
    seriesGet (d.map (fun a => (a, c a))) t = if t ∈ d then c t else 0 := by
  induction d with
  | nil => simp [seriesGet]
  | cons a d ih =>
    by_cases hat : a = t
    · subst hat
      simp [seriesGet, List.find?_cons]
    · have hb : (a == t) = false := by simp [hat]
      simp only [List.map_cons, seriesGet, List.find?_cons, hb] at ih ⊢
      rw [ih]
      simp [List.mem_cons, Ne.symm hat]

lemma seriesGet_value_counts (l : List String) (t : String) :
    seriesGet (value_counts l) t = l.count t := by
  rw [value_counts, seriesGet_map_eq]
  by_cases h : t ∈ l.dedup
  · simp [h]
  · have h2 : t ∉ l := fun hl => h (List.mem_dedup.mpr hl)
    simp [h, List.count_eq_zero.mpr h2]

lemma count_presentStatuses (t : String) (s : Store) :
    (presentStatuses s).count t = countStatus t s := by
  induction s with
  | nil => rfl
  | cons r s ih =>
    cases h : r.status with
    | none =>
      simp only [presentStatuses, List.filterMap_cons, h, countStatus, List.countP_cons] at ih ⊢
      simp [ih]
    | some u =>
      simp only [presentStatuses, List.filterMap_cons, h, countStatus, List.countP_cons,
        List.count_cons] at ih ⊢
      rw [ih]
      by_cases hu : u = t
      · simp [hu]
      · simp [hu]

lemma sum_value_counts (l : List String) :
    ((value_counts l).map Prod.snd).sum = l.length := by
  rw [value_counts, List.map_map]
  have h : (Prod.snd ∘ fun a => (a, l.count a)) = fun a => l.count a := rfl
  rw [h]
  exact List.sum_map_count_dedup_eq_length l

lemma presentStatuses_length (s : Store) (h : ∀ r ∈ s, r.status.isSome) :
    (presentStatuses s).length = s.length := by
  induction s with
  | nil => rfl
  | cons r t ih =>
    have hr := h r (by simp)
    cases hs : r.status with
    | none => rw [hs] at hr; simp at hr
    | some u =>
      have ht := ih (fun x hx => h x (by simp [hx]))
      simp only [presentStatuses] at ht
      simp only [presentStatuses, List.filterMap_cons, hs, List.length_cons, ht]

lemma dateToIso_ne_blank (d : Date) : dateToIso d ≠ "" := by
  intro h
  have hl := congrArg String.length h
  rw [dateToIso, String.length_append, String.length_append, String.length_append,
    String.length_append] at hl
  have h1 : ("-" : String).length = 1 := rfl
  have h2 : ("" : String).length = 0 := rfl
  omega

/-- Counterexample for C1: the record with Follow-up Date `"1500-01-01"`
has a non-blank, `YYYY-MM-DD`-parseable follow-up on or before
`asOf = 2024-01-01` — and the text is one the store itself writes
(`isoCell`), so the store is reachable — yet `follow_ups_pending` returns
nothing: the coercion turns the out-of-`Timestamp`-bounds date into NaT. -/
theorem followUpsPending_excludes_out_of_bounds :
    (followUpRec "1500-01-01").followUp = some "1500-01-01" ∧
    parseDate "1500-01-01" = some ⟨1500, 1, 1⟩ ∧
    Date.leb ⟨1500, 1, 1⟩ ⟨2024, 1, 1⟩ = true ∧
    isoCell (some "1500-01-01") = true ∧
    follow_ups_pending ⟨2024, 1, 1⟩ [followUpRec "1500-01-01"] = [] := by decide

/-- Claim C1 (amended): on stores whose follow-up cells are store-written
(missing, blank, or ISO date text — where the `to_datetime` model is
exact), `pending_follow_ups(asOf)` keeps exactly the records whose
Follow-up Date is non-blank, parseable, within the pandas `Timestamp`
bounds, and `≤ asOf` (the `followUpDue` test), in store order — stated as
equality with a filter of the store — and the boundary is inclusive: a
record whose follow-up coerces to exactly `asOf` is in the result. -/
theorem followUpsPending_exactly_due (asOf : Date) (s : Store)
    (_hcells : ∀ r ∈ s, isoCell r.followUp = true) :
    follow_ups_pending asOf s = s.filter (fun r => followUpDue asOf r.followUp) ∧
    ∀ r ∈ s, toDatetime r.followUp = some asOf → r ∈ follow_ups_pending asOf s := by
  refine ⟨follow_ups_pending_eq_filter asOf s, ?_⟩
  intro r hr hparse
  rw [follow_ups_pending_eq_filter]
  refine List.mem_filter.mpr ⟨hr, ?_⟩
  rw [← followUpDue_eq_coerce, hparse]
  simp [Date.leb]

/-- Witness for C1 at a concrete input: the boundary record with
Follow-up Date `2024-01-01` is pending on `asOf = 2024-01-01`. -/
theorem followUpsPending_exactly_due_witness :
    followUpRec "2024-01-01" ∈ follow_ups_pending ⟨2024, 1, 1⟩ [followUpRec "2024-01-01"] :=
  (followUpsPending_exactly_due ⟨2024, 1, 1⟩ [followUpRec "2024-01-01"] (by decide)).2
    (followUpRec "2024-01-01") (by decide) (by decide)

/-- Claim C2: deleting with a display number below 1 or above the record
count is rejected as out of range and the persisted store is unchanged. -/
theorem delete_out_of_range (i : Int) (s : Store)
    (h : i < 1 ∨ (s.length : Int) < i) :
    delete_application i s = .indexOutOfRange ∧ storeAfterDelete i s = s := by
  have hc : (decide (i - 1 < 0) || decide ((s.length : Int) ≤ i - 1)) = true := by
    simp only [Bool.or_eq_true, decide_eq_true_eq]
    omega
  have hdel : delete_application i s = .indexOutOfRange := by
    simp only [delete_application]
    rw [if_pos hc]
  refine ⟨hdel, ?_⟩
  simp only [storeAfterDelete]
  rw [hdel]

/-- Witness for C2 at a concrete input: number 0 on a one-record store. -/
theorem delete_out_of_range_witness :
    delete_application 0 [blankRec] = .indexOutOfRange ∧
    storeAfterDelete 0 [blankRec] = [blankRec] :=
  delete_out_of_range 0 [blankRec] (by decide)

/-- Claim C3: deleting a valid display index `i` (1-based) leaves the
other records in their original relative order — the result is the first
`i - 1` records followed by the records after position `i` — and shrinks
the store by one. -/
theorem delete_then_list (s : Store) (i : Nat) (h1 : 1 ≤ i) (h2 : i ≤ s.length) :
    view_applications (storeAfterDelete (i : Int) s) = s.take (i - 1) ++ s.drop i ∧
    (view_applications (storeAfterDelete (i : Int) s)).length = s.length - 1 := by
  have hc : ¬((decide ((i : Int) - 1 < 0) || decide ((s.length : Int) ≤ (i : Int) - 1)) = true) := by
    simp only [Bool.or_eq_true, decide_eq_true_eq]
    omega
  have htn : ((i : Int) - 1).toNat = i - 1 := by omega
  have he : s.eraseIdx (i - 1) = s.take (i - 1) ++ s.drop i := by
    rw [List.eraseIdx_eq_take_drop_succ]
    have h3 : i - 1 + 1 = i := by omega
    rw [h3]
  have hdel : delete_application (i : Int) s = .ok (s.take (i - 1) ++ s.drop i) := by
    simp only [delete_application]
    rw [if_neg hc, htn, he]
  have hmain : view_applications (storeAfterDelete (i : Int) s) = s.take (i - 1) ++ s.drop i := by
    simp only [view_applications, storeAfterDelete]
    rw [hdel]
  refine ⟨hmain, ?_⟩
  rw [hmain]
  simp only [List.length_append, List.length_take, List.length_drop]
  omega

/-- Witness for C3 at a concrete input: deleting number 1 of a two-record
store leaves exactly the second record. -/
theorem delete_then_list_witness :
    view_applications (storeAfterDelete 1 [statusRec "Applied", statusRec "Interview"]) =
      [statusRec "Interview"] ∧
    (view_applications (storeAfterDelete 1 [statusRec "Applied", statusRec "Interview"])).length = 1 := by
  have h := delete_then_list [statusRec "Applied", statusRec "Interview"] 1 (by decide) (by decide)
  simpa using h

/-- Claim C4: on an empty store `application_stats` signals the empty case
(no report is produced), and any produced report has a positive total, so
the percentage divisions never have a zero denominator. -/
theorem stats_empty_store (asOf : Date) :
    application_stats asOf [] = none ∧
    ∀ (s : Store) (rep : StatsReport), application_stats asOf s = some rep → 0 < rep.total := by
  refine ⟨rfl, ?_⟩
  intro s rep h
  cases s with
  | nil => simp [application_stats] at h
  | cons a t =>
    simp only [application_stats, List.isEmpty_cons, Bool.false_eq_true, if_false,
      Option.some_inj] at h
    rw [← h]
    simp

/-- Helper for the C4 witness: a one-record store does produce a report. -/
lemma stats_one_isSome :
    ∃ rep, application_stats ⟨2024, 1, 1⟩ [statusRec "Applied"] = some rep := by
  simp only [application_stats]
  rw [if_neg (by decide)]
  exact ⟨_, rfl⟩

/-- Witness for C4: the empty store yields no report, and a concrete
non-empty store yields a report with positive total. -/
theorem stats_empty_store_witness :
    application_stats ⟨2024, 1, 1⟩ [] = none ∧
    ∃ rep, application_stats ⟨2024, 1, 1⟩ [statusRec "Applied"] = some rep ∧ 0 < rep.total := by
  obtain ⟨rep, hrep⟩ := stats_one_isSome
  exact ⟨(stats_empty_store ⟨2024, 1, 1⟩).1, rep, hrep,
    (stats_empty_store ⟨2024, 1, 1⟩).2 [statusRec "Applied"] rep hrep⟩

/-- Claim C5: `add` always appends exactly one record; its stored
application date is the parse of the (stripped) input when that parses as
`YYYY-MM-DD`, and today's date when the input is blank or unparseable
(note `parseDate "" = none`, so the blank case is covered by the
parse-failure case). -/
theorem add_normalizes_date (raw : RawInput) (today : Date) (s : Store) :
    add_application raw today s = s ++ [newRecord raw today] ∧
    (add_application raw today s).length = s.length + 1 ∧
    (∀ d, parseDate (pyStrip raw.dateApplied) = some d →
      (newRecord raw today).date = some (dateToIso d)) ∧
    (parseDate (pyStrip raw.dateApplied) = none →
      (newRecord raw today).date = some (dateToIso today)) := by
  refine ⟨rfl, by simp [add_application], ?_, ?_⟩
  · intro d hd
    have hne : pyStrip raw.dateApplied ≠ "" := by
      intro h0
      rw [h0, show parseDate "" = none from rfl] at hd
      cases hd
    simp [newRecord, normalizeAppDate, hne, hd]
  · intro hd
    by_cases h0 : pyStrip raw.dateApplied = ""
    · simp [newRecord, normalizeAppDate, h0]
    · simp [newRecord, normalizeAppDate, h0, hd]

/-- Witness for C5: the space-padded input `"2024-01- 5"` parses and is
stored as 2024-01-05, not as today. -/
theorem add_normalizes_date_witness :
    (newRecord rawValidDate ⟨2024, 1, 2⟩).date = some (dateToIso ⟨2024, 1, 5⟩) :=
  (add_normalizes_date rawValidDate ⟨2024, 1, 2⟩ []).2.2.1 ⟨2024, 1, 5⟩ (by decide)

/-- Claim C6: a non-blank follow-up input that does not parse as
`YYYY-MM-DD` is stored as the blank text cell — not as today's date — and
the add still appends its record. -/
theorem add_blanks_invalid_follow_up (raw : RawInput) (today : Date) (s : Store)
    (hne : pyStrip raw.followUp ≠ "") (hp : parseDate (pyStrip raw.followUp) = none) :
    (add_application raw today s).length = s.length + 1 ∧
    (newRecord raw today).followUp = some "" ∧
    (newRecord raw today).followUp ≠ some (dateToIso today) := by
  have hcell : normalizeFollowUpCell (pyStrip raw.followUp) = some "" := by
    simp [normalizeFollowUpCell, hne, hp]
  refine ⟨by simp [add_application], by simp [newRecord, hcell], ?_⟩
  simp only [newRecord, hcell, ne_eq, Option.some_inj]
  exact fun hcontra => dateToIso_ne_blank today hcontra.symm

/-- Witness for C6: follow-up `"999-01-02"` (three-digit year, rejected by
`%Y`) is stored blank and the add appends. -/
theorem add_blanks_invalid_follow_up_witness :
    (add_application rawBadFollowUp ⟨2024, 1, 2⟩ []).length = 0 + 1 ∧
    (newRecord rawBadFollowUp ⟨2024, 1, 2⟩).followUp = some "" ∧
    (newRecord rawBadFollowUp ⟨2024, 1, 2⟩).followUp ≠ some (dateToIso ⟨2024, 1, 2⟩) := by
  have h := add_blanks_invalid_follow_up rawBadFollowUp ⟨2024, 1, 2⟩ [] (by decide) (by decide)
  simpa using h

/-- Helper: the report a non-empty store produces, spelled out. -/
lemma application_stats_some (asOf : Date) (s : Store) (h : s.isEmpty = false) :
    application_stats asOf s = some
      { total := s.length
        statusCounts := value_counts (presentStatuses s)
        appsToInterview :=
          (seriesGet (value_counts (presentStatuses s)) "Interview" : Rat) / (s.length : Rat) * 100
        appsToOffer :=
          (seriesGet (value_counts (presentStatuses s)) "Offer" : Rat) / (s.length : Rat) * 100
        pendingFollowUpCount := (follow_ups_pending asOf s).length } := by
  simp only [application_stats]
  rw [if_neg (by rw [h]; exact Bool.false_ne_true)]

/-- Claim C7: on every non-empty store the two conversion rates equal
(count of records with that status) / total * 100 exactly (as rationals),
and on the Applied/Applied/Interview/Offer scenario the report has
total 4, status counts Applied 2, Interview 1, Offer 1, and both
conversion rates 25. -/
theorem stats_conversion_rates (asOf : Date) (s : Store) (h : s ≠ []) :
    (∃ rep, application_stats asOf s = some rep ∧
      rep.total = s.length ∧
      rep.appsToInterview = (countStatus "Interview" s : Rat) / (s.length : Rat) * 100 ∧
      rep.appsToOffer = (countStatus "Offer" s : Rat) / (s.length : Rat) * 100) ∧
    (∃ rep, application_stats asOf scenarioStore = some rep ∧
      rep.total = 4 ∧
      seriesGet rep.statusCounts "Applied" = 2 ∧
      seriesGet rep.statusCounts "Interview" = 1 ∧
      seriesGet rep.statusCounts "Offer" = 1 ∧
      rep.appsToInterview = 25 ∧
      rep.appsToOffer = 25) := by
  have hie : s.isEmpty = false := List.isEmpty_eq_false.mpr h
  constructor
  · refine ⟨_, application_stats_some asOf s hie, rfl, ?_, ?_⟩
    · show (seriesGet (value_counts (presentStatuses s)) "Interview" : Rat) /
          (s.length : Rat) * 100 = (countStatus "Interview" s : Rat) / (s.length : Rat) * 100
      rw [seriesGet_value_counts, count_presentStatuses]
    · show (seriesGet (value_counts (presentStatuses s)) "Offer" : Rat) /
          (s.length : Rat) * 100 = (countStatus "Offer" s : Rat) / (s.length : Rat) * 100
      rw [seriesGet_value_counts, count_presentStatuses]
  · refine ⟨_, application_stats_some asOf scenarioStore rfl,
      rfl, rfl, rfl, rfl, ?_, ?_⟩
    · show (seriesGet (value_counts (presentStatuses scenarioStore)) "Interview" : Rat) /
          (scenarioStore.length : Rat) * 100 = 25
      rw [show seriesGet (value_counts (presentStatuses scenarioStore)) "Interview" = 1 from by decide,
        show scenarioStore.length = 4 from rfl]
      norm_num
    · show (seriesGet (value_counts (presentStatuses scenarioStore)) "Offer" : Rat) /
          (scenarioStore.length : Rat) * 100 = 25
      rw [show seriesGet (value_counts (presentStatuses scenarioStore)) "Offer" = 1 from by decide,
        show scenarioStore.length = 4 from rfl]
      norm_num

/-- Witness for C7: the scenario itself, at a concrete reference date. -/
theorem stats_conversion_rates_witness :
    ∃ rep, application_stats ⟨2024, 1, 1⟩ scenarioStore = some rep ∧
      rep.total = 4 ∧
      seriesGet rep.statusCounts "Applied" = 2 ∧
      seriesGet rep.statusCounts "Interview" = 1 ∧
      seriesGet rep.statusCounts "Offer" = 1 ∧
      rep.appsToInterview = 25 ∧
      rep.appsToOffer = 25 :=
  (stats_conversion_rates ⟨2024, 1, 1⟩ scenarioStore (by decide)).2

/-- Counterexample for C9: a blank field (empty text — an empty Company or
a blank Follow-up Date is serialized exactly so) does not survive the
round trip: it reloads as a missing value, not as empty text. -/
theorem round_trip_not_lossless :
    reloadColumn [PyVal.str ""] = [PyVal.nan] ∧
    reloadColumn [PyVal.str ""] ≠ [PyVal.str ""] := by decide

/-- Claim C9 (amended): persist-then-reload is the identity on every
column whose cells are missing or plain text (non-empty, not an NA token,
not integer-, float- or boolean/infinity-shaped — ISO date text is plain,
so Date and follow-up cells are covered); only the coercions of
`read_csv` (empty/NA text to missing, wholly numeric columns to numbers)
break identity. -/
theorem round_trip_plain_cells (col : List PyVal) (h : ∀ v ∈ col, cellIntact v = true) :
    reloadColumn col = col := by
  unfold reloadColumn readColumn
  by_cases hall : (col.map writeCell).all (fun c => naTokens.contains c || intLike c) = true
  · rw [if_pos hall, List.map_map]
    have hnan : ∀ v ∈ col, v = PyVal.nan := by
      intro v hv
      have hc := List.all_eq_true.mp hall (writeCell v) (List.mem_map_of_mem _ hv)
      have hok := h v hv
      cases v with
      | nan => rfl
      | int n => simp [cellIntact] at hok
      | str s =>
        simp only [cellIntact, plainText, Bool.and_eq_true, Bool.not_eq_true'] at hok
        simp only [writeCell, Bool.or_eq_true] at hc
        rcases hc with hc | hc
        · rw [hok.1.1.1] at hc; cases hc
        · rw [hok.1.1.2] at hc; cases hc
    have hcongr : ∀ v ∈ col,
        (if naTokens.contains (writeCell v) then PyVal.nan
         else PyVal.int (parseIntToken (writeCell v))) = id v := by
      intro v hv
      rw [hnan v hv]
      rfl
    simp only [Function.comp_def]
    rw [List.map_congr_left hcongr, List.map_id]
  · rw [if_neg hall, List.map_map]
    have hcongr : ∀ v ∈ col,
        (if naTokens.contains (writeCell v) then PyVal.nan
         else PyVal.str (writeCell v)) = id v := by
      intro v hv
      have hok := h v hv
      cases v with
      | nan => rfl
      | int n => simp [cellIntact] at hok
      | str s =>
        simp only [cellIntact, plainText, Bool.and_eq_true, Bool.not_eq_true'] at hok
        simp only [writeCell, hok.1.1.1, Bool.false_eq_true, if_false, id]
    simp only [Function.comp_def]
    rw [List.map_congr_left hcongr, List.map_id]

/-- Witness for C9 (amended) at a concrete input: a missing cell, a plain
text cell, and an ISO date cell survive the round trip. -/
theorem round_trip_plain_cells_witness :
    reloadColumn [PyVal.nan, PyVal.str "Acme", PyVal.str "2024-01-01"] =
      [PyVal.nan, PyVal.str "Acme", PyVal.str "2024-01-01"] :=
  round_trip_plain_cells [PyVal.nan, PyVal.str "Acme", PyVal.str "2024-01-01"] (by decide)

/-- Counterexample for C10: with a missing Status cell in the store, the
status counts sum to 1 while the reported total is 2 (`value_counts`
skips missing values, `len(df)` does not). -/
theorem status_counts_undercount :
    (application_stats ⟨2024, 1, 1⟩ storeWithMissingStatus).map
      (fun rep => ((rep.statusCounts.map Prod.snd).sum, rep.total)) = some (1, 2) ∧
    (1 : Nat) ≠ 2 := by decide

/-- Claim C10 (amended): when every record has a present (non-missing)
Status cell, the status counts sum exactly to the total, and the exact
percentages the report derives from them sum to 100. -/
theorem status_counts_sum_to_total (asOf : Date) (s : Store) (h : s ≠ [])
    (hall : ∀ r ∈ s, r.status.isSome) :
    ∃ rep, application_stats asOf s = some rep ∧
      (rep.statusCounts.map Prod.snd).sum = rep.total ∧
      (rep.statusCounts.map (fun p => (p.2 : Rat) / (rep.total : Rat) * 100)).sum = 100 := by
  have hie : s.isEmpty = false := List.isEmpty_eq_false.mpr h
  have hsum : ((value_counts (presentStatuses s)).map Prod.snd).sum = s.length := by
    rw [sum_value_counts, presentStatuses_length s hall]
  refine ⟨_, application_stats_some asOf s hie, hsum, ?_⟩
  show ((value_counts (presentStatuses s)).map
      (fun p => (p.2 : Rat) / (s.length : Rat) * 100)).sum = 100
  have hlen : (0 : Rat) < (s.length : Rat) := by
    have h2 : 0 < s.length := List.length_pos.mpr h
    exact_mod_cast h2
  have hne2 : (s.length : Rat) ≠ 0 := ne_of_gt hlen
  have hfun : ∀ p ∈ value_counts (presentStatuses s),
      (p.2 : Rat) / (s.length : Rat) * 100 = (p.2 : Rat) * (100 / (s.length : Rat)) := by
    intro p _
    ring
  have hcast : ((value_counts (presentStatuses s)).map (fun p => (p.2 : Rat))).sum
      = (((value_counts (presentStatuses s)).map Prod.snd).sum : Rat) := by
    rw [Nat.cast_list_sum, List.map_map]
    simp only [Function.comp_def]
  rw [List.map_congr_left hfun, List.sum_map_mul_right, hcast, hsum, mul_comm,
    div_mul_cancel₀ _ hne2]

/-- Witness for C10 (amended) at a concrete input: a two-record store with
present statuses. -/
theorem status_counts_sum_to_total_witness :
    ∃ rep, application_stats ⟨2024, 1, 1⟩ [statusRec "Applied", statusRec "Offer"] = some rep ∧
      (rep.statusCounts.map Prod.snd).sum = rep.total ∧
      (rep.statusCounts.map (fun p => (p.2 : Rat) / (rep.total : Rat) * 100)).sum = 100 :=
  status_counts_sum_to_total ⟨2024, 1, 1⟩ [statusRec "Applied", statusRec "Offer"]
    (by decide) (by decide)
